import Mathlib

/-!
Shallow embedding of the DLMS/COSEM xDLMS APDU codecs found in
`dlms_cosem/protocol/xdlms/general_block_transfer.py` and
`dlms_cosem/protocol/xdlms/set.py`.

Byte buffers are `List Nat` (each entry is meant to be `< 256`; decoders are
total over `Nat` entries exactly as the Python operates on `bytearray`
elements).  Python exceptions become `Except` error values; the distinct
`raise` sites of the source are mapped to distinct constructors of
`DecodeError`/`EncodeError`.
-/

/-- Each constructor corresponds to a distinct failure site of the source:
`indexError` is `bytearray.pop` on an empty buffer, `tagMismatch` the leading
tag check, `typeMismatch` a variant decoder seeing the wrong type-choice,
`unknownVariant` the enum constructor rejecting a type-choice outside 1..5,
`notImplementedVariant` a dispatch to an unimplemented variant,
`selectiveAccessNotImplemented` a non-zero access-selection byte,
`lastBlockSet`/`blockNumberNotOne` the WithFirstBlock field invariants,
`lengthMismatch` the octet-string length check, `trailingData` the
General-Block-Transfer leftover-bytes assertion, `subEncodingError` a failure
in a delegated sub-encoding, and `invalidDataAccessResult` the
Data-Access-Result enum constructor rejecting a byte. -/
inductive DecodeError where
  | indexError
  | tagMismatch
  | typeMismatch
  | unknownVariant
  | notImplementedVariant
  | selectiveAccessNotImplemented
  | lastBlockSet
  | blockNumberNotOne
  | lengthMismatch
  | trailingData
  | subEncodingError
  | invalidDataAccessResult
deriving DecidableEq, Repr

/-- Python encoding failures: `bytes([x])` with `x > 255` raises `ValueError`
(`byteOverflow`); `int.to_bytes` with a value too large for the requested
width raises `OverflowError` (`intOverflow`). -/
inductive EncodeError where
  | byteOverflow
  | intOverflow
deriving DecidableEq, Repr

/-- `int.from_bytes(l, "big")`: big-endian interpretation; the empty buffer
decodes to 0. -/
def bytesToNat (l : List Nat) : Nat :=
  l.foldl (fun acc b => acc * 256 + b) 0

/-- `n.to_bytes(w, "big")` without the overflow check: the `w` low base-256
digits of `n`, big-endian. -/
def natToBytes : Nat → Nat → List Nat
  | 0, _ => []
  | w + 1, n => natToBytes w (n / 256) ++ [n % 256]

theorem bytesToNat_append_singleton (l : List Nat) (b : Nat) :
    bytesToNat (l ++ [b]) = bytesToNat l * 256 + b := by
  simp [bytesToNat, List.foldl_append]

theorem natToBytes_length (w n : Nat) : (natToBytes w n).length = w := by
  induction w generalizing n with
  | zero => simp [natToBytes]
  | succ w ih => simp [natToBytes, ih]

theorem bytesToNat_natToBytes (w n : Nat) (h : n < 256 ^ w) :
    bytesToNat (natToBytes w n) = n := by
  induction w generalizing n with
  | zero =>
    simp [natToBytes, bytesToNat]
    omega
  | succ w ih =>
    have hdiv : n / 256 < 256 ^ w := by
      have : n < 256 ^ w * 256 := by
        rw [pow_succ] at h
        omega
      omega
    simp [natToBytes, bytesToNat_append_singleton, ih _ hdiv]
    omega

theorem natToBytes_mem_lt (w n : Nat) : ∀ b ∈ natToBytes w n, b < 256 := by
  induction w generalizing n with
  | zero => simp [natToBytes]
  | succ w ih =>
    intro b hb
    simp [natToBytes] at hb
    rcases hb with hb | hb
    · exact ih _ b hb
    · omega

/-! ## General-Block-Transfer (general_block_transfer.py) -/

/-- `GeneralBlockTransfer`: `TAG = 224`; fields as in the attrs class. -/
structure GeneralBlockTransfer where
  last_block : Bool
  streaming : Bool
  window : Nat
  block_number : Nat
  block_ack : Nat
  block_data : List Nat
deriving DecidableEq, Repr

namespace GeneralBlockTransfer

/-- `GeneralBlockTransfer.from_bytes`: pop tag (must be 224), pop the block
control octet (bit 7 last_block, bit 6 streaming, bits 0-5 window), read two
2-byte big-endian fields, read a 1-byte length and that many data bytes, and
assert nothing is left. -/
def from_bytes (source_bytes : List Nat) : Except DecodeError GeneralBlockTransfer :=
  match source_bytes with
  | [] => .error .indexError
  | tag :: data =>
    if tag ≠ 224 then .error .tagMismatch
    else
      match data with
      | [] => .error .indexError
      | block_control :: data =>
        let last_block : Bool := block_control &&& 128 ≠ 0
        let streaming : Bool := block_control &&& 64 ≠ 0
        let window := block_control &&& 63
        let block_number := bytesToNat (data.take 2)
        let data := data.drop 2
        let block_ack := bytesToNat (data.take 2)
        let data := data.drop 2
        match data with
        | [] => .error .indexError
        | length :: data =>
          let block_data := data.take length
          let data := data.drop length
          if data ≠ [] then .error .trailingData
          else .ok { last_block := last_block, streaming := streaming,
                     window := window, block_number := block_number,
                     block_ack := block_ack, block_data := block_data }

/-- `GeneralBlockTransfer.to_bytes`: `b"\xE0"`, the control octet
`last_block << 7 | streaming << 6 | window` (as a single byte, so `ValueError`
when it exceeds 255), `block_number.to_bytes(2)`, `block_ack.to_bytes(2)`,
`len(block_data).to_bytes(1)` (each raising `OverflowError` when too large),
then the data. -/
def to_bytes (x : GeneralBlockTransfer) : Except EncodeError (List Nat) :=
  let control := (if x.last_block then 1 else 0) <<< 7 |||
                 (if x.streaming then 1 else 0) <<< 6 ||| x.window
  if 256 ≤ control then .error .byteOverflow
  else if 65536 ≤ x.block_number then .error .intOverflow
  else if 65536 ≤ x.block_ack then .error .intOverflow
  else if 256 ≤ x.block_data.length then .error .intOverflow
  else .ok (224 :: control :: natToBytes 2 x.block_number ++
            natToBytes 2 x.block_ack ++
            x.block_data.length :: x.block_data)

end GeneralBlockTransfer

/-- Control-octet recovery: for `window ≤ 63` the three packed components are
recovered exactly by the masks the decoder applies, and the octet fits in a
byte. -/
theorem control_octet_recovery (lb s : Bool) (w : Nat) (hw : w ≤ 63) :
    (((if lb then 1 else 0) <<< 7 ||| (if s then 1 else 0) <<< 6 ||| w) &&& 128 ≠ 0 : Bool) = lb ∧
    (((if lb then 1 else 0) <<< 7 ||| (if s then 1 else 0) <<< 6 ||| w) &&& 64 ≠ 0 : Bool) = s ∧
    ((if lb then 1 else 0) <<< 7 ||| (if s then 1 else 0) <<< 6 ||| w) &&& 63 = w ∧
    ((if lb then 1 else 0) <<< 7 ||| (if s then 1 else 0) <<< 6 ||| w) < 256 := by
  cases lb <;> cases s <;> (interval_cases w <;> decide)

/-- Evaluating `GeneralBlockTransfer.from_bytes` on a well-shaped buffer:
tag 224, any control octet, 2-byte block number and ack, a correct 1-byte
length, and the data. -/
theorem GeneralBlockTransfer.from_bytes_gbt_shape (c bn ba : Nat) (bd : List Nat)
    (hbn : bn < 65536) (hba : ba < 65536) :
    GeneralBlockTransfer.from_bytes
        (224 :: c :: natToBytes 2 bn ++ natToBytes 2 ba ++ bd.length :: bd) =
      .ok { last_block := c &&& 128 ≠ 0, streaming := c &&& 64 ≠ 0,
            window := c &&& 63, block_number := bn, block_ack := ba,
            block_data := bd } := by
  simp [GeneralBlockTransfer.from_bytes, natToBytes, bytesToNat]
  constructor <;> omega

/-- Round trip of `GeneralBlockTransfer` for in-range field values: encoding
succeeds and decoding the result restores every field. -/
theorem gbt_roundtrip (lb s : Bool) (w bn ba : Nat) (bd : List Nat)
    (hw : w ≤ 63) (hbn : bn < 65536) (hba : ba < 65536) (hbd : bd.length ≤ 255) :
    GeneralBlockTransfer.to_bytes ⟨lb, s, w, bn, ba, bd⟩ =
      .ok (224 :: ((if lb then 1 else 0) <<< 7 ||| (if s then 1 else 0) <<< 6 ||| w) ::
           natToBytes 2 bn ++ natToBytes 2 ba ++ bd.length :: bd) ∧
    GeneralBlockTransfer.from_bytes
        (224 :: ((if lb then 1 else 0) <<< 7 ||| (if s then 1 else 0) <<< 6 ||| w) ::
         natToBytes 2 bn ++ natToBytes 2 ba ++ bd.length :: bd) =
      .ok ⟨lb, s, w, bn, ba, bd⟩ := by
  obtain ⟨h128, h64, h63, hlt⟩ := control_octet_recovery lb s w hw
  constructor
  · simp only [GeneralBlockTransfer.to_bytes]
    rw [if_neg (by omega), if_neg (by omega), if_neg (by omega), if_neg (by omega)]
  · rw [GeneralBlockTransfer.from_bytes_gbt_shape _ bn ba bd hbn hba, h128, h64, h63]

/-! ## Delegated sub-encodings (external collaborators of set.py) -/

/-- Modelled from the spec: `Invoke-Id-And-Priority` (module
`dlms_cosem.protocol.xdlms.invoke_id_and_priority`, not part of this core) is
"a single byte correlating requests to responses and carrying a priority
flag"; the Set codecs delegate exactly one byte to it and re-emit that byte on
encoding.  We model it as an opaque single byte. -/
structure InvokeIdAndPriority where
  value : Nat
deriving DecidableEq, Repr

def InvokeIdAndPriority.from_bytes (source_bytes : List Nat) :
    Except DecodeError InvokeIdAndPriority :=
  match source_bytes with
  | [b] => .ok ⟨b⟩
  | _ => .error .subEncodingError

def InvokeIdAndPriority.to_bytes (i : InvokeIdAndPriority) : List Nat :=
  [i.value]

/-- Modelled from the spec: the `Cosem-Attribute-Descriptor` (module
`dlms_cosem.cosem`, not part of this core) is an opaque "9-byte attribute
descriptor, delegated"; decoding requires exactly 9 bytes and encoding
returns them unchanged. -/
structure CosemAttribute where
  descriptor : List Nat
deriving DecidableEq, Repr

def CosemAttribute.from_bytes (source_bytes : List Nat) :
    Except DecodeError CosemAttribute :=
  if source_bytes.length = 9 then .ok ⟨source_bytes⟩
  else .error .subEncodingError

def CosemAttribute.to_bytes (c : CosemAttribute) : List Nat :=
  c.descriptor

/-- Modelled from the spec: `Data-Access-Result` (module
`dlms_cosem.enumerations`, not part of this core) is an "enumerated outcome
code reported by a Set-Response indicating success or a specific failure
reason"; membership test for the enumerated byte values. -/
def isDataAccessResult (b : Nat) : Bool :=
  b = 0 || b = 1 || b = 2 || b = 3 || b = 4 || b = 9 || b = 11 || b = 12 ||
  b = 13 || b = 14 || b = 15 || b = 16 || b = 17 || b = 18 || b = 19 || b = 250

structure DataAccessResult where
  value : Nat
deriving DecidableEq, Repr

/-- The enum constructor `enums.DataAccessResult(b)`: `ValueError` on a byte
outside the enumeration. -/
def DataAccessResult.ofNat (b : Nat) : Except DecodeError DataAccessResult :=
  if isDataAccessResult b then .ok ⟨b⟩ else .error .invalidDataAccessResult

/-- Number of base-256 digits of `n` (0 for 0). -/
def byteLength (n : Nat) : Nat :=
  if h : n = 0 then 0 else byteLength (n / 256) + 1
decreasing_by exact Nat.div_lt_self (Nat.pos_of_ne_zero h) (by decide)

/-- Modelled from the spec: `encode_variable_integer` (module
`dlms_cosem.dlms_data`, not part of this core) is the "BER-style
length-prefix" encoder: values up to 127 are one byte; larger values get a
first byte `0x80 | k` where `k` is the byte count, then the value big-endian
in `k` bytes. -/
def encode_variable_integer (n : Nat) : List Nat :=
  if 127 < n then (128 ||| byteLength n) :: natToBytes (byteLength n) n
  else [n]

/-- Modelled from the spec: `decode_variable_integer` reads the BER-style
length prefix off the front of the buffer and returns the value and the
remaining bytes; an empty buffer is an index error. -/
def decode_variable_integer (source_bytes : List Nat) :
    Except DecodeError (Nat × List Nat) :=
  match source_bytes with
  | [] => .error .indexError
  | b :: rest =>
    if b &&& 128 ≠ 0 then
      let k := b &&& 127
      .ok (bytesToNat (rest.take k), rest.drop k)
    else .ok (b, rest)

/-- The `enums.SetRequestType` CHOICE discriminants of set.py's ASN.1 comment:
normal 1, with-first-datablock 2, with-datablock 3, with-list 4,
with-list-and-first-datablock 5. -/
inductive SetRequestType where
  | normal
  | withFirstBlock
  | withBlock
  | withList
  | firstBlockWithList
deriving DecidableEq, Repr

/-- The enum constructor `enums.SetRequestType(b)`, here `ofByte`: `ValueError` outside
1..5. -/
def SetRequestType.ofByte (b : Nat) : Except DecodeError SetRequestType :=
  match b with
  | 1 => .ok .normal
  | 2 => .ok .withFirstBlock
  | 3 => .ok .withBlock
  | 4 => .ok .withList
  | 5 => .ok .firstBlockWithList
  | _ => .error .unknownVariant

/-- The `enums.SetResponseType` CHOICE discriminants: normal 1, datablock 2,
last-datablock 3, last-datablock-with-list 4, with-list 5. -/
inductive SetResponseType where
  | normal
  | withBlock
  | withLastBlock
  | lastBlockWithList
  | withList
deriving DecidableEq, Repr

/-- The enum constructor `enums.SetResponseType(b)`, here `ofByte`: `ValueError` outside
1..5. -/
def SetResponseType.ofByte (b : Nat) : Except DecodeError SetResponseType :=
  match b with
  | 1 => .ok .normal
  | 2 => .ok .withBlock
  | 3 => .ok .withLastBlock
  | 4 => .ok .lastBlockWithList
  | 5 => .ok .withList
  | _ => .error .unknownVariant

/-! ## Set-Request family (set.py) -/

/-- `SetRequestNormal`: `TAG = 193`, `RESPONSE_TYPE = NORMAL` (1).
`access_selection` is `Optional[Any]`; the only requirement on a present
value is that it has a `to_bytes`, so we model it as the bytes that call
would produce. -/
structure SetRequestNormal where
  cosem_attribute : CosemAttribute
  data : List Nat
  access_selection : Option (List Nat)
  invoke_id_and_priority : InvokeIdAndPriority
deriving DecidableEq, Repr

namespace SetRequestNormal

/-- `SetRequestNormal.from_bytes`: pop tag (193), pop and validate the
type-choice (`SetRequestType`, must be NORMAL), delegate one byte to
`InvokeIdAndPriority`, delegate `data[:9]` to `CosemAttribute`, pop the
access-selection flag (non-zero raises `NotImplementedError`), and the whole
remainder is the raw value. -/
def from_bytes (source_bytes : List Nat) : Except DecodeError SetRequestNormal :=
  match source_bytes with
  | [] => .error .indexError
  | tag :: data =>
    if tag ≠ 193 then .error .tagMismatch
    else
      match data with
      | [] => .error .indexError
      | tc :: data =>
        match SetRequestType.ofByte tc with
        | .error e => .error e
        | .ok type_choice =>
          if type_choice ≠ SetRequestType.normal then .error .typeMismatch
          else
            match data with
            | [] => .error .indexError
            | iip :: data =>
              match InvokeIdAndPriority.from_bytes [iip] with
              | .error e => .error e
              | .ok invoke_id_and_priority =>
                match CosemAttribute.from_bytes (data.take 9) with
                | .error e => .error e
                | .ok cosem_attribute =>
                  match data.drop 9 with
                  | [] => .error .indexError
                  | sel :: data =>
                    if sel ≠ 0 then .error .selectiveAccessNotImplemented
                    else .ok { cosem_attribute := cosem_attribute,
                               data := data,
                               access_selection := none,
                               invoke_id_and_priority := invoke_id_and_priority }

/-- `SetRequestNormal.to_bytes`: tag, type-choice 1, invoke byte, descriptor
bytes, the access-selection flag (and bytes when present), then the raw
value. -/
def to_bytes (x : SetRequestNormal) : List Nat :=
  193 :: 1 :: x.invoke_id_and_priority.to_bytes ++ x.cosem_attribute.to_bytes ++
  (match x.access_selection with
   | some sel => 1 :: sel
   | none => [0]) ++ x.data

end SetRequestNormal

/-- `SetRequestWithFirstBlock`: `TAG = 193`, `RESPONSE_TYPE =
WITH_FIRST_BLOCK` (2).  Same fields as Normal; the encoder always emits
`last_block = 0`, `block_number = 1` and a variable-length prefix. -/
structure SetRequestWithFirstBlock where
  cosem_attribute : CosemAttribute
  data : List Nat
  access_selection : Option (List Nat)
  invoke_id_and_priority : InvokeIdAndPriority
deriving DecidableEq, Repr

namespace SetRequestWithFirstBlock

/-- `SetRequestWithFirstBlock.from_bytes`: the Normal prefix (with
type-choice WITH_FIRST_BLOCK), then the last-block byte (must be 0), the
4-byte block number (must equal 1), and a variable-length-prefixed fragment
whose declared length must equal the remaining byte count. -/
def from_bytes (source_bytes : List Nat) :
    Except DecodeError SetRequestWithFirstBlock :=
  match source_bytes with
  | [] => .error .indexError
  | tag :: data =>
    if tag ≠ 193 then .error .tagMismatch
    else
      match data with
      | [] => .error .indexError
      | tc :: data =>
        match SetRequestType.ofByte tc with
        | .error e => .error e
        | .ok type_choice =>
          if type_choice ≠ SetRequestType.withFirstBlock then .error .typeMismatch
          else
            match data with
            | [] => .error .indexError
            | iip :: data =>
              match InvokeIdAndPriority.from_bytes [iip] with
              | .error e => .error e
              | .ok invoke_id_and_priority =>
                match CosemAttribute.from_bytes (data.take 9) with
                | .error e => .error e
                | .ok cosem_attribute =>
                  match data.drop 9 with
                  | [] => .error .indexError
                  | sel :: data =>
                    if sel ≠ 0 then .error .selectiveAccessNotImplemented
                    else
                      match data with
                      | [] => .error .indexError
                      | lb :: data =>
                        if lb ≠ 0 then .error .lastBlockSet
                        else
                          if bytesToNat (data.take 4) ≠ 1 then .error .blockNumberNotOne
                          else
                            match decode_variable_integer (data.drop 4) with
                            | .error e => .error e
                            | .ok (data_length, data) =>
                              if data_length ≠ data.length then .error .lengthMismatch
                              else .ok { cosem_attribute := cosem_attribute,
                                         data := data,
                                         access_selection := none,
                                         invoke_id_and_priority := invoke_id_and_priority }

/-- `SetRequestWithFirstBlock.to_bytes`: tag, type-choice 2, invoke byte,
descriptor, access flag, `0` for last_block, `00 00 00 01` for block_number,
variable-length prefix of the fragment length, then the fragment. -/
def to_bytes (x : SetRequestWithFirstBlock) : List Nat :=
  193 :: 2 :: x.invoke_id_and_priority.to_bytes ++ x.cosem_attribute.to_bytes ++
  (match x.access_selection with
   | some sel => 1 :: sel
   | none => [0]) ++
  0 :: ([0, 0, 0, 1] ++ (encode_variable_integer x.data.length ++ x.data))

end SetRequestWithFirstBlock

/-- The Set-Request CHOICE as a closed sum over the implemented variants;
the family dispatcher returns one of these. -/
inductive SetRequest where
  | normal (v : SetRequestNormal)
  | withFirstBlock (v : SetRequestWithFirstBlock)
deriving DecidableEq, Repr

/-- Modelled from the spec: `SetRequestWithBlock` (type-choice 3) is
"declared but unimplemented" — its class body is `...`, so the abstract
base's `from_bytes` runs and raises `NotImplementedError`. -/
def SetRequestWithBlock.from_bytes (_source_bytes : List Nat) :
    Except DecodeError SetRequest :=
  .error .notImplementedVariant

/-- `SetRequestFactory.from_bytes`: pop and validate tag 193, construct the
`SetRequestType` from the next byte, then re-decode the entire original
buffer with the selected variant's decoder; NORMAL and WITH_FIRST_BLOCK are
implemented, WITH_BLOCK dispatches to the stub, everything else raises
`NotImplementedError`. -/
def SetRequestFactory.from_bytes (source_bytes : List Nat) :
    Except DecodeError SetRequest :=
  match source_bytes with
  | [] => .error .indexError
  | tag :: data =>
    if tag ≠ 193 then .error .tagMismatch
    else
      match data with
      | [] => .error .indexError
      | tc :: _ =>
        match SetRequestType.ofByte tc with
        | .error e => .error e
        | .ok SetRequestType.normal =>
          (SetRequestNormal.from_bytes source_bytes).map SetRequest.normal
        | .ok SetRequestType.withFirstBlock =>
          (SetRequestWithFirstBlock.from_bytes source_bytes).map SetRequest.withFirstBlock
        | .ok SetRequestType.withBlock =>
          SetRequestWithBlock.from_bytes source_bytes
        | .ok _ => .error .notImplementedVariant

/-! ## Set-Response family (set.py) -/

/-- `SetResponseNormal`: `TAG = 197`, `RESPONSE_TYPE = NORMAL` (1). -/
structure SetResponseNormal where
  result : DataAccessResult
  invoke_id_and_priority : InvokeIdAndPriority
deriving DecidableEq, Repr

namespace SetResponseNormal

/-- `SetResponseNormal.from_bytes`: pop tag (197), pop and validate the
type-choice (must be NORMAL), delegate one byte to `InvokeIdAndPriority`,
pop the result byte through the `DataAccessResult` enum; any remaining bytes
are ignored. -/
def from_bytes (source_bytes : List Nat) : Except DecodeError SetResponseNormal :=
  match source_bytes with
  | [] => .error .indexError
  | tag :: data =>
    if tag ≠ 197 then .error .tagMismatch
    else
      match data with
      | [] => .error .indexError
      | tc :: data =>
        match SetResponseType.ofByte tc with
        | .error e => .error e
        | .ok type_choice =>
          if type_choice ≠ SetResponseType.normal then .error .typeMismatch
          else
            match data with
            | [] => .error .indexError
            | iip :: data =>
              match InvokeIdAndPriority.from_bytes [iip] with
              | .error e => .error e
              | .ok invoke_id_and_priority =>
                match data with
                | [] => .error .indexError
                | res :: _ =>
                  match DataAccessResult.ofNat res with
                  | .error e => .error e
                  | .ok result =>
                    .ok { result := result,
                          invoke_id_and_priority := invoke_id_and_priority }

/-- `SetResponseNormal.to_bytes`: tag, type-choice 1, invoke byte, result
byte. -/
def to_bytes (x : SetResponseNormal) : List Nat :=
  197 :: 1 :: x.invoke_id_and_priority.to_bytes ++ [x.result.value]

end SetResponseNormal

/-- `SetResponseWithBlock`: `TAG = 197`, `RESPONSE_TYPE = WITH_BLOCK` (2). -/
structure SetResponseWithBlock where
  invoke_id_and_priority : InvokeIdAndPriority
  block_number : Nat
deriving DecidableEq, Repr

namespace SetResponseWithBlock

/-- `SetResponseWithBlock.from_bytes`: tag, type-choice (must be
WITH_BLOCK), invoke byte, then `block_number = int.from_bytes(data[:4])` —
fewer than 4 remaining bytes decode as the truncated big-endian value and
extra bytes are ignored. -/
def from_bytes (source_bytes : List Nat) : Except DecodeError SetResponseWithBlock :=
  match source_bytes with
  | [] => .error .indexError
  | tag :: data =>
    if tag ≠ 197 then .error .tagMismatch
    else
      match data with
      | [] => .error .indexError
      | tc :: data =>
        match SetResponseType.ofByte tc with
        | .error e => .error e
        | .ok type_choice =>
          if type_choice ≠ SetResponseType.withBlock then .error .typeMismatch
          else
            match data with
            | [] => .error .indexError
            | iip :: data =>
              match InvokeIdAndPriority.from_bytes [iip] with
              | .error e => .error e
              | .ok invoke_id_and_priority =>
                .ok { invoke_id_and_priority := invoke_id_and_priority,
                      block_number := bytesToNat (data.take 4) }

/-- `SetResponseWithBlock.to_bytes`: tag, type-choice 2, invoke byte, then
`block_number.to_bytes(4, "big")` (OverflowError when it does not fit). -/
def to_bytes (x : SetResponseWithBlock) : Except EncodeError (List Nat) :=
  if 4294967296 ≤ x.block_number then .error .intOverflow
  else .ok (197 :: 2 :: x.invoke_id_and_priority.to_bytes ++
            natToBytes 4 x.block_number)

end SetResponseWithBlock

/-- `SetResponseLastBlock`: `TAG = 197`, `RESPONSE_TYPE = WITH_LAST_BLOCK`
(3). -/
structure SetResponseLastBlock where
  result : DataAccessResult
  invoke_id_and_priority : InvokeIdAndPriority
  block_number : Nat
deriving DecidableEq, Repr

namespace SetResponseLastBlock

/-- `SetResponseLastBlock.from_bytes`: tag, type-choice (must be
WITH_LAST_BLOCK), invoke byte, result byte through the enum, then
`block_number = int.from_bytes(data[:4])` with the same truncation and
trailing-byte leniency as `SetResponseWithBlock`. -/
def from_bytes (source_bytes : List Nat) : Except DecodeError SetResponseLastBlock :=
  match source_bytes with
  | [] => .error .indexError
  | tag :: data =>
    if tag ≠ 197 then .error .tagMismatch
    else
      match data with
      | [] => .error .indexError
      | tc :: data =>
        match SetResponseType.ofByte tc with
        | .error e => .error e
        | .ok type_choice =>
          if type_choice ≠ SetResponseType.withLastBlock then .error .typeMismatch
          else
            match data with
            | [] => .error .indexError
            | iip :: data =>
              match InvokeIdAndPriority.from_bytes [iip] with
              | .error e => .error e
              | .ok invoke_id_and_priority =>
                match data with
                | [] => .error .indexError
                | res :: data =>
                  match DataAccessResult.ofNat res with
                  | .error e => .error e
                  | .ok result =>
                    .ok { result := result,
                          invoke_id_and_priority := invoke_id_and_priority,
                          block_number := bytesToNat (data.take 4) }

/-- `SetResponseLastBlock.to_bytes`: tag, type-choice 3, invoke byte, result
byte, then `block_number.to_bytes(4, "big")`. -/
def to_bytes (x : SetResponseLastBlock) : Except EncodeError (List Nat) :=
  if 4294967296 ≤ x.block_number then .error .intOverflow
  else .ok (197 :: 3 :: x.invoke_id_and_priority.to_bytes ++ x.result.value ::
            natToBytes 4 x.block_number)

end SetResponseLastBlock

/-- The Set-Response CHOICE as a closed sum over the implemented variants. -/
inductive SetResponse where
  | normal (v : SetResponseNormal)
  | withBlock (v : SetResponseWithBlock)
  | lastBlock (v : SetResponseLastBlock)
deriving DecidableEq, Repr

/-- `SetResponseFactory.from_bytes`: pop and validate tag 197, construct the
`SetResponseType` from the next byte, then re-decode the entire original
buffer with the selected variant's decoder; NORMAL, WITH_BLOCK and
WITH_LAST_BLOCK are implemented, everything else raises
`NotImplementedError`. -/
def SetResponseFactory.from_bytes (source_bytes : List Nat) :
    Except DecodeError SetResponse :=
  match source_bytes with
  | [] => .error .indexError
  | tag :: data =>
    if tag ≠ 197 then .error .tagMismatch
    else
      match data with
      | [] => .error .indexError
      | tc :: _ =>
        match SetResponseType.ofByte tc with
        | .error e => .error e
        | .ok SetResponseType.normal =>
          (SetResponseNormal.from_bytes source_bytes).map SetResponse.normal
        | .ok SetResponseType.withBlock =>
          (SetResponseWithBlock.from_bytes source_bytes).map SetResponse.withBlock
        | .ok SetResponseType.withLastBlock =>
          (SetResponseLastBlock.from_bytes source_bytes).map SetResponse.lastBlock
        | .ok _ => .error .notImplementedVariant

/-! ## Helper lemmas -/

theorem byteLength_pos_bound (n : Nat) : n < 256 ^ byteLength n := by
  induction n using Nat.strong_induction_on with
  | _ n ih =>
    rw [byteLength]
    split
    · simp [*]
    · rename_i h
      have hlt := ih (n / 256) (Nat.div_lt_self (Nat.pos_of_ne_zero h) (by decide))
      rw [pow_succ]
      omega

theorem byteLength_le (n w : Nat) (h : n < 256 ^ w) : byteLength n ≤ w := by
  induction n using Nat.strong_induction_on generalizing w with
  | _ n ih =>
    rw [byteLength]
    split
    · omega
    · rename_i hn
      match w with
      | 0 => simp at h; omega
      | w + 1 =>
        have hdiv : n / 256 < 256 ^ w := by
          rw [pow_succ] at h
          omega
        have := ih (n / 256) (Nat.div_lt_self (Nat.pos_of_ne_zero hn) (by decide)) w hdiv
        omega

theorem high_bit_clear (n : Nat) (h : n ≤ 127) : n &&& 128 = 0 := by
  interval_cases n <;> decide

theorem long_form_prefix (k : Nat) (h : k ≤ 127) :
    (128 ||| k) &&& 128 = 128 ∧ (128 ||| k) &&& 127 = k := by
  interval_cases k <;> decide

/-- Round trip of the BER-style variable-length integer codec, for values
whose byte length fits the 7-bit long-form count. -/
theorem decode_encode_variable_integer (n : Nat) (rest : List Nat)
    (h : n < 256 ^ 127) :
    decode_variable_integer (encode_variable_integer n ++ rest) = .ok (n, rest) := by
  rw [encode_variable_integer]
  split
  · rename_i hn
    have hk : byteLength n ≤ 127 := byteLength_le n 127 h
    obtain ⟨h128, h127⟩ := long_form_prefix (byteLength n) hk
    simp only [List.cons_append, decode_variable_integer, h128, h127]
    rw [if_pos (by decide)]
    rw [List.take_left' (natToBytes_length _ n), List.drop_left' (natToBytes_length _ n)]
    rw [bytesToNat_natToBytes _ n (byteLength_pos_bound n)]
  · rename_i hn
    simp only [List.cons_append, List.nil_append, decode_variable_integer]
    rw [if_neg (by simp [high_bit_clear n (by omega)])]

theorem SetRequestNormal.from_bytes_srn_shape (iip : Nat) (d : List Nat)
    (hd : d.length = 9) (sel : Nat) (rest : List Nat) :
    SetRequestNormal.from_bytes (193 :: 1 :: iip :: (d ++ sel :: rest)) =
      if sel ≠ 0 then .error .selectiveAccessNotImplemented
      else .ok { cosem_attribute := ⟨d⟩, data := rest, access_selection := none,
                 invoke_id_and_priority := ⟨iip⟩ } := by
  simp only [SetRequestNormal.from_bytes, InvokeIdAndPriority.from_bytes,
    CosemAttribute.from_bytes, SetRequestType.ofByte,
    List.take_left' hd, List.drop_left' hd]
  simp [hd]

theorem SetRequestNormal.roundtrip_srn (x : SetRequestNormal)
    (hd : x.cosem_attribute.descriptor.length = 9)
    (ha : x.access_selection = none) :
    SetRequestNormal.from_bytes x.to_bytes = .ok x := by
  obtain ⟨⟨d⟩, data, acc, ⟨iip⟩⟩ := x
  subst ha
  simp only [SetRequestNormal.to_bytes, InvokeIdAndPriority.to_bytes,
    CosemAttribute.to_bytes, List.cons_append, List.nil_append, List.append_assoc]
  exact SetRequestNormal.from_bytes_srn_shape iip d hd 0 data |>.trans (by simp)

theorem SetRequestWithFirstBlock.from_bytes_wfb_shape (iip : Nat) (d : List Nat)
    (hd : d.length = 9) (sel lb : Nat) (tail : List Nat) :
    SetRequestWithFirstBlock.from_bytes (193 :: 2 :: iip :: (d ++ sel :: lb :: tail)) =
      if sel ≠ 0 then .error .selectiveAccessNotImplemented
      else if lb ≠ 0 then .error .lastBlockSet
      else if bytesToNat (tail.take 4) ≠ 1 then .error .blockNumberNotOne
      else
        match decode_variable_integer (tail.drop 4) with
        | .error e => .error e
        | .ok (data_length, rest) =>
          if data_length ≠ rest.length then .error .lengthMismatch
          else .ok { cosem_attribute := ⟨d⟩, data := rest, access_selection := none,
                     invoke_id_and_priority := ⟨iip⟩ } := by
  simp only [SetRequestWithFirstBlock.from_bytes, InvokeIdAndPriority.from_bytes,
    CosemAttribute.from_bytes, SetRequestType.ofByte,
    List.take_left' hd, List.drop_left' hd]
  simp [hd]

theorem SetRequestWithFirstBlock.roundtrip_wfb (x : SetRequestWithFirstBlock)
    (hd : x.cosem_attribute.descriptor.length = 9)
    (ha : x.access_selection = none)
    (hlen : x.data.length < 256 ^ 127) :
    SetRequestWithFirstBlock.from_bytes x.to_bytes = .ok x := by
  obtain ⟨⟨d⟩, data, acc, ⟨iip⟩⟩ := x
  subst ha
  simp only [SetRequestWithFirstBlock.to_bytes, InvokeIdAndPriority.to_bytes,
    CosemAttribute.to_bytes, List.cons_append, List.nil_append, List.append_assoc]
  rw [SetRequestWithFirstBlock.from_bytes_wfb_shape iip d hd 0 0
      (0 :: 0 :: 0 :: 1 :: (encode_variable_integer data.length ++ data))]
  simp only [List.take, List.drop]
  rw [decode_encode_variable_integer data.length data hlen]
  simp [bytesToNat]

theorem take_all_of_length_eq {l : List Nat} {n : Nat} (h : l.length = n) :
    l.take n = l := by
  subst h
  exact List.take_length l

theorem SetResponseNormal.from_bytes_respn_shape (iip res : Nat) (rest : List Nat) :
    SetResponseNormal.from_bytes (197 :: 1 :: iip :: res :: rest) =
      if isDataAccessResult res then
        .ok { result := ⟨res⟩, invoke_id_and_priority := ⟨iip⟩ }
      else .error .invalidDataAccessResult := by
  simp only [SetResponseNormal.from_bytes, InvokeIdAndPriority.from_bytes,
    SetResponseType.ofByte, DataAccessResult.ofNat]
  by_cases h : isDataAccessResult res <;> simp [h]

theorem SetResponseNormal.roundtrip_respn (x : SetResponseNormal)
    (hres : isDataAccessResult x.result.value) :
    SetResponseNormal.from_bytes x.to_bytes = .ok x := by
  obtain ⟨⟨res⟩, ⟨iip⟩⟩ := x
  simp only [SetResponseNormal.to_bytes, InvokeIdAndPriority.to_bytes,
    List.cons_append, List.nil_append]
  rw [SetResponseNormal.from_bytes_respn_shape iip res []]
  simp_all

theorem SetResponseWithBlock.from_bytes_respwb_shape (iip : Nat) (tail : List Nat) :
    SetResponseWithBlock.from_bytes (197 :: 2 :: iip :: tail) =
      .ok { invoke_id_and_priority := ⟨iip⟩,
            block_number := bytesToNat (tail.take 4) } := by
  simp [SetResponseWithBlock.from_bytes, InvokeIdAndPriority.from_bytes,
    SetResponseType.ofByte]

theorem SetResponseWithBlock.roundtrip_respwb (x : SetResponseWithBlock)
    (hbn : x.block_number < 4294967296) :
    ∃ b, SetResponseWithBlock.to_bytes x = .ok b ∧
         SetResponseWithBlock.from_bytes b = .ok x := by
  obtain ⟨⟨iip⟩, bn⟩ := x
  refine ⟨197 :: 2 :: iip :: natToBytes 4 bn, ?_, ?_⟩
  · simp only [SetResponseWithBlock.to_bytes, InvokeIdAndPriority.to_bytes]
    rw [if_neg (by simpa using hbn)]
    simp
  · rw [SetResponseWithBlock.from_bytes_respwb_shape iip (natToBytes 4 bn),
      take_all_of_length_eq (natToBytes_length 4 bn),
      bytesToNat_natToBytes 4 bn (by simpa using hbn)]

theorem SetResponseLastBlock.from_bytes_resplb_shape (iip res : Nat) (tail : List Nat) :
    SetResponseLastBlock.from_bytes (197 :: 3 :: iip :: res :: tail) =
      if isDataAccessResult res then
        .ok { result := ⟨res⟩, invoke_id_and_priority := ⟨iip⟩,
              block_number := bytesToNat (tail.take 4) }
      else .error .invalidDataAccessResult := by
  simp only [SetResponseLastBlock.from_bytes, InvokeIdAndPriority.from_bytes,
    SetResponseType.ofByte, DataAccessResult.ofNat]
  by_cases h : isDataAccessResult res <;> simp [h]

theorem SetResponseLastBlock.roundtrip_resplb (x : SetResponseLastBlock)
    (hres : isDataAccessResult x.result.value)
    (hbn : x.block_number < 4294967296) :
    ∃ b, SetResponseLastBlock.to_bytes x = .ok b ∧
         SetResponseLastBlock.from_bytes b = .ok x := by
  obtain ⟨⟨res⟩, ⟨iip⟩, bn⟩ := x
  refine ⟨197 :: 3 :: iip :: res :: natToBytes 4 bn, ?_, ?_⟩
  · simp only [SetResponseLastBlock.to_bytes, InvokeIdAndPriority.to_bytes]
    rw [if_neg (by simpa using hbn)]
    simp
  · rw [SetResponseLastBlock.from_bytes_resplb_shape iip res (natToBytes 4 bn),
      take_all_of_length_eq (natToBytes_length 4 bn),
      bytesToNat_natToBytes 4 bn (by simpa using hbn)]
    simp_all

theorem SetRequestType.ofByte_out_of_range_req (tc : Nat) (h : tc = 0 ∨ 5 < tc) :
    SetRequestType.ofByte tc = .error .unknownVariant := by
  rcases h with h | h
  · subst h
    rfl
  · obtain ⟨k, rfl⟩ : ∃ k, tc = k + 6 := ⟨tc - 6, by omega⟩
    rfl

theorem SetResponseType.ofByte_out_of_range_resp (tc : Nat) (h : tc = 0 ∨ 5 < tc) :
    SetResponseType.ofByte tc = .error .unknownVariant := by
  rcases h with h | h
  · subst h
    rfl
  · obtain ⟨k, rfl⟩ : ∃ k, tc = k + 6 := ⟨tc - 6, by omega⟩
    rfl

theorem SetRequestFactory.eval_unknown_req (tc : Nat) (rest : List Nat)
    (h : tc = 0 ∨ 5 < tc) :
    SetRequestFactory.from_bytes (193 :: tc :: rest) = .error .unknownVariant := by
  simp [SetRequestFactory.from_bytes, SetRequestType.ofByte_out_of_range_req tc h]

theorem SetRequestFactory.eval_normal_req (rest : List Nat) :
    SetRequestFactory.from_bytes (193 :: 1 :: rest) =
      (SetRequestNormal.from_bytes (193 :: 1 :: rest)).map SetRequest.normal := rfl

theorem SetRequestFactory.eval_withFirstBlock (rest : List Nat) :
    SetRequestFactory.from_bytes (193 :: 2 :: rest) =
      (SetRequestWithFirstBlock.from_bytes (193 :: 2 :: rest)).map
        SetRequest.withFirstBlock := rfl

theorem SetRequestFactory.eval_notImplemented_req (tc : Nat) (rest : List Nat)
    (h : tc = 3 ∨ tc = 4 ∨ tc = 5) :
    SetRequestFactory.from_bytes (193 :: tc :: rest) =
      .error .notImplementedVariant := by
  rcases h with h | h | h <;> subst h <;> rfl

theorem SetResponseFactory.eval_unknown_resp (tc : Nat) (rest : List Nat)
    (h : tc = 0 ∨ 5 < tc) :
    SetResponseFactory.from_bytes (197 :: tc :: rest) = .error .unknownVariant := by
  simp [SetResponseFactory.from_bytes, SetResponseType.ofByte_out_of_range_resp tc h]

theorem SetResponseFactory.eval_normal_resp (rest : List Nat) :
    SetResponseFactory.from_bytes (197 :: 1 :: rest) =
      (SetResponseNormal.from_bytes (197 :: 1 :: rest)).map SetResponse.normal := rfl

theorem SetResponseFactory.eval_withBlock (rest : List Nat) :
    SetResponseFactory.from_bytes (197 :: 2 :: rest) =
      (SetResponseWithBlock.from_bytes (197 :: 2 :: rest)).map
        SetResponse.withBlock := rfl

theorem SetResponseFactory.eval_lastBlock (rest : List Nat) :
    SetResponseFactory.from_bytes (197 :: 3 :: rest) =
      (SetResponseLastBlock.from_bytes (197 :: 3 :: rest)).map
        SetResponse.lastBlock := rfl

theorem SetResponseFactory.eval_notImplemented_resp (tc : Nat) (rest : List Nat)
    (h : tc = 4 ∨ tc = 5) :
    SetResponseFactory.from_bytes (197 :: tc :: rest) =
      .error .notImplementedVariant := by
  rcases h with h | h <;> subst h <;> rfl

theorem SetRequestNormal.access_none_srn (b : List Nat) (v : SetRequestNormal)
    (h : SetRequestNormal.from_bytes b = .ok v) : v.access_selection = none := by
  unfold SetRequestNormal.from_bytes at h
  repeat any_goals split at h
  all_goals cases h
  all_goals rfl

theorem SetRequestWithFirstBlock.access_none_wfb (b : List Nat)
    (v : SetRequestWithFirstBlock)
    (h : SetRequestWithFirstBlock.from_bytes b = .ok v) :
    v.access_selection = none := by
  unfold SetRequestWithFirstBlock.from_bytes at h
  repeat any_goals split at h
  all_goals cases h
  all_goals rfl

theorem SetRequestType.ofByte_eq_withFirstBlock (tc : Nat)
    (h : SetRequestType.ofByte tc = .ok .withFirstBlock) : tc = 2 := by
  match tc, h with
  | 2, _ => rfl
  | 0, h | 1, h | 3, h | 4, h | 5, h => simp [SetRequestType.ofByte] at h
  | n + 6, h => simp [SetRequestType.ofByte] at h

theorem CosemAttribute.from_bytes_ok_length (bs : List Nat) (c : CosemAttribute)
    (h : CosemAttribute.from_bytes bs = .ok c) : bs.length = 9 := by
  unfold CosemAttribute.from_bytes at h
  split at h
  · assumption
  · cases h

theorem SetRequestWithFirstBlock.ok_implies_first (b : List Nat)
    (v : SetRequestWithFirstBlock)
    (h : SetRequestWithFirstBlock.from_bytes b = .ok v) :
    ∃ iip d mid, d.length = 9 ∧
      b = 193 :: 2 :: iip :: (d ++ 0 :: 0 :: mid) ∧
      bytesToNat (mid.take 4) = 1 := by
  unfold SetRequestWithFirstBlock.from_bytes at h
  repeat any_goals split at h
  all_goals cases h
  rename_i data7 tag htag data6 tc x3 tcv heqtc htcv data5 iip data4 x2 iipv
    heqiip x1 ca heqca data3 sel hsel data2 lb data1 heqdrop hlb hbn x0 dl
    rest heqvar hdl
  have htag9 : tag = 193 := by omega
  have htcv2 : tcv = SetRequestType.withFirstBlock := by
    by_contra hc
    exact htcv hc
  subst htcv2
  have htc2 : tc = 2 := SetRequestType.ofByte_eq_withFirstBlock tc heqtc
  have hsel0 : sel = 0 := by omega
  have hlb0 : lb = 0 := by omega
  subst htag9 htc2 hsel0 hlb0
  refine ⟨iip, data4.take 9, data1,
    CosemAttribute.from_bytes_ok_length _ _ heqca, ?_, by omega⟩
  rw [← heqdrop, List.take_append_drop]

theorem GeneralBlockTransfer.from_bytes_leftover (c b2 b3 b4 b5 len : Nat)
    (rest : List Nat) (h : rest.drop len ≠ []) :
    GeneralBlockTransfer.from_bytes (224 :: c :: b2 :: b3 :: b4 :: b5 :: len :: rest) =
      .error .trailingData := by
  simp only [GeneralBlockTransfer.from_bytes]
  simp [h]

theorem GeneralBlockTransfer.from_bytes_shortfall (c b2 b3 b4 b5 len : Nat)
    (rest : List Nat) (h : rest.length ≤ len) :
    GeneralBlockTransfer.from_bytes (224 :: c :: b2 :: b3 :: b4 :: b5 :: len :: rest) =
      .ok { last_block := c &&& 128 ≠ 0, streaming := c &&& 64 ≠ 0,
            window := c &&& 63, block_number := b2 * 256 + b3,
            block_ack := b4 * 256 + b5, block_data := rest } := by
  simp only [GeneralBlockTransfer.from_bytes]
  simp [List.take_of_length_le h, List.drop_of_length_le h, bytesToNat]

/-- A non-zero access-selection byte fails `SetRequestWithFirstBlock`
decoding before any later field is read. -/
theorem SetRequestWithFirstBlock.from_bytes_sel (iip : Nat) (d : List Nat)
    (hd : d.length = 9) (sel : Nat) (rest : List Nat) (hsel : sel ≠ 0) :
    SetRequestWithFirstBlock.from_bytes (193 :: 2 :: iip :: (d ++ sel :: rest)) =
      .error .selectiveAccessNotImplemented := by
  simp only [SetRequestWithFirstBlock.from_bytes, InvokeIdAndPriority.from_bytes,
    CosemAttribute.from_bytes, SetRequestType.ofByte,
    List.take_left' hd, List.drop_left' hd]
  simp [hd, hsel]

/-! ## Claims -/

/-- C2: the literal General-Block-Transfer vector: `last_block = true,
streaming = false, window = 3, block_number = 4, block_ack = 5,
block_data = "abc"` encodes to `E0 83 00 04 00 05 03 61 62 63`, and decoding
that buffer reproduces exactly those field values. -/
theorem claim_C2_gbt_literal_vector :
    GeneralBlockTransfer.to_bytes
        { last_block := true, streaming := false, window := 3,
          block_number := 4, block_ack := 5, block_data := [97, 98, 99] } =
      .ok [224, 131, 0, 4, 0, 5, 3, 97, 98, 99] ∧
    GeneralBlockTransfer.from_bytes [224, 131, 0, 4, 0, 5, 3, 97, 98, 99] =
      .ok { last_block := true, streaming := false, window := 3,
            block_number := 4, block_ack := 5, block_data := [97, 98, 99] } := by
  constructor <;> rfl

/-- C3 counterexample: a General-Block-Transfer buffer whose declared 1-byte
length (5) exceeds the remaining bytes (3) does NOT fail: decoding succeeds
and returns a value whose `block_data` is the truncated remainder, refuting
both "shortfall is fatal" and "decode never returns a value constructed from
a truncated data field". -/
theorem claim_C3_counterexample :
    GeneralBlockTransfer.from_bytes [224, 131, 0, 4, 0, 5, 5, 97, 98, 99] =
      .ok { last_block := true, streaming := false, window := 3,
            block_number := 4, block_ack := 5, block_data := [97, 98, 99] } := by
  rfl

/-- C3 (amended): leftover bytes after the declared General-Block-Transfer
data are fatal (the `assert not data` site, `trailingData`), and in
SetRequestWithFirstBlock a variable-length prefix different from the
remaining fragment length is fatal (`lengthMismatch`); but a
General-Block-Transfer length exceeding the remaining bytes is accepted,
returning the truncated data. -/
theorem claim_C3_length_agreement :
    (∀ c b2 b3 b4 b5 len : Nat, ∀ rest : List Nat, len < rest.length →
      GeneralBlockTransfer.from_bytes
          (224 :: c :: b2 :: b3 :: b4 :: b5 :: len :: rest) =
        .error .trailingData) ∧
    (∀ iip n : Nat, ∀ d rest : List Nat, d.length = 9 → n ≤ 127 →
      n ≠ rest.length →
      SetRequestWithFirstBlock.from_bytes
          (193 :: 2 :: iip :: (d ++ 0 :: 0 :: 0 :: 0 :: 0 :: 1 :: n :: rest)) =
        .error .lengthMismatch) ∧
    (∀ c b2 b3 b4 b5 len : Nat, ∀ rest : List Nat, rest.length < len →
      GeneralBlockTransfer.from_bytes
          (224 :: c :: b2 :: b3 :: b4 :: b5 :: len :: rest) =
        .ok { last_block := c &&& 128 ≠ 0, streaming := c &&& 64 ≠ 0,
              window := c &&& 63, block_number := b2 * 256 + b3,
              block_ack := b4 * 256 + b5, block_data := rest }) := by
  refine ⟨?_, ?_, ?_⟩
  · intro c b2 b3 b4 b5 len rest hlen
    apply GeneralBlockTransfer.from_bytes_leftover
    intro hnil
    have := congrArg List.length hnil
    simp [List.length_drop] at this
    omega
  · intro iip n d rest hd hn hne
    rw [SetRequestWithFirstBlock.from_bytes_wfb_shape iip d hd 0 0
        (0 :: 0 :: 0 :: 1 :: n :: rest)]
    simp only [List.take, List.drop]
    rw [show decode_variable_integer (n :: rest) = .ok (n, rest) from by
      simp [decode_variable_integer, high_bit_clear n hn]]
    simp [bytesToNat, hne]
  · intro c b2 b3 b4 b5 len rest hlen
    exact GeneralBlockTransfer.from_bytes_shortfall c b2 b3 b4 b5 len rest
      (by omega)

/-- C4: every decoder of each family rejects a buffer whose first byte is not
the family's fixed tag (224 for General-Block-Transfer, 193 for Set-Request,
197 for Set-Response) with the tag-mismatch error, whatever the remaining
bytes are (so no later field is ever read). -/
theorem claim_C4_tag_rejection :
    (∀ t : Nat, ∀ rest : List Nat, t ≠ 224 →
      GeneralBlockTransfer.from_bytes (t :: rest) = .error .tagMismatch) ∧
    (∀ t : Nat, ∀ rest : List Nat, t ≠ 193 →
      SetRequestNormal.from_bytes (t :: rest) = .error .tagMismatch ∧
      SetRequestWithFirstBlock.from_bytes (t :: rest) = .error .tagMismatch ∧
      SetRequestFactory.from_bytes (t :: rest) = .error .tagMismatch) ∧
    (∀ t : Nat, ∀ rest : List Nat, t ≠ 197 →
      SetResponseNormal.from_bytes (t :: rest) = .error .tagMismatch ∧
      SetResponseWithBlock.from_bytes (t :: rest) = .error .tagMismatch ∧
      SetResponseLastBlock.from_bytes (t :: rest) = .error .tagMismatch ∧
      SetResponseFactory.from_bytes (t :: rest) = .error .tagMismatch) := by
  refine ⟨?_, ?_, ?_⟩
  · intro t rest h
    simp [GeneralBlockTransfer.from_bytes, h]
  · intro t rest h
    refine ⟨?_, ?_, ?_⟩ <;>
      simp [SetRequestNormal.from_bytes, SetRequestWithFirstBlock.from_bytes,
        SetRequestFactory.from_bytes, h]
  · intro t rest h
    refine ⟨?_, ?_, ?_, ?_⟩ <;>
      simp [SetResponseNormal.from_bytes, SetResponseWithBlock.from_bytes,
        SetResponseLastBlock.from_bytes, SetResponseFactory.from_bytes, h]

/-- C4 witness: concrete instantiation at first byte 1. -/
theorem claim_C4_tag_rejection_witness :
    GeneralBlockTransfer.from_bytes [1, 2, 3] = .error .tagMismatch ∧
    SetRequestFactory.from_bytes [1, 2, 3] = .error .tagMismatch ∧
    SetResponseFactory.from_bytes [1, 2, 3] = .error .tagMismatch :=
  ⟨claim_C4_tag_rejection.1 1 [2, 3] (by decide),
   (claim_C4_tag_rejection.2.1 1 [2, 3] (by decide)).2.2,
   (claim_C4_tag_rejection.2.2 1 [2, 3] (by decide)).2.2.2⟩

/-- C3 witness: a leftover-bytes buffer fails, a mismatched WithFirstBlock
length prefix fails, and a shortfall buffer decodes to the truncated data. -/
theorem claim_C3_length_agreement_witness :
    GeneralBlockTransfer.from_bytes [224, 131, 0, 4, 0, 5, 2, 97, 98, 99] =
      .error .trailingData ∧
    SetRequestWithFirstBlock.from_bytes
        (193 :: 2 :: 65 :: ([0, 0, 3, 1, 0, 0, 96, 2, 0] ++
          0 :: 0 :: 0 :: 0 :: 0 :: 1 :: 5 :: [97, 98, 99])) =
      .error .lengthMismatch ∧
    GeneralBlockTransfer.from_bytes [224, 131, 0, 4, 0, 5, 5, 97, 98, 99] =
      .ok { last_block := true, streaming := false, window := 3,
            block_number := 4, block_ack := 5, block_data := [97, 98, 99] } :=
  ⟨claim_C3_length_agreement.1 131 0 4 0 5 2 [97, 98, 99] (by decide),
   claim_C3_length_agreement.2.1 65 5 [0, 0, 3, 1, 0, 0, 96, 2, 0]
     [97, 98, 99] (by decide) (by decide) (by decide),
   claim_C3_length_agreement.2.2 131 0 4 0 5 5 [97, 98, 99] (by decide)⟩

/-- C5: on a structurally valid SetRequestWithFirstBlock buffer, a non-zero
last-block byte fails with the dedicated last-block invariant error, a 4-byte
block number different from 1 fails with the dedicated block-number invariant
error (both distinct `raise` sites from every structural failure), and every
value the decoder returns came from a buffer whose last-block byte is 0 and
whose block-number field decodes to 1. -/
theorem claim_C5_withFirstBlock_invariants :
    (∀ iip lb : Nat, ∀ d tail : List Nat, d.length = 9 → lb ≠ 0 →
      SetRequestWithFirstBlock.from_bytes
          (193 :: 2 :: iip :: (d ++ 0 :: lb :: tail)) =
        .error .lastBlockSet) ∧
    (∀ iip : Nat, ∀ d bn tail : List Nat, d.length = 9 → bn.length = 4 →
      bytesToNat bn ≠ 1 →
      SetRequestWithFirstBlock.from_bytes
          (193 :: 2 :: iip :: (d ++ 0 :: 0 :: (bn ++ tail))) =
        .error .blockNumberNotOne) ∧
    (∀ b : List Nat, ∀ v : SetRequestWithFirstBlock,
      SetRequestWithFirstBlock.from_bytes b = .ok v →
      ∃ iip d mid, d.length = 9 ∧
        b = 193 :: 2 :: iip :: (d ++ 0 :: 0 :: mid) ∧
        bytesToNat (mid.take 4) = 1) := by
  refine ⟨?_, ?_, SetRequestWithFirstBlock.ok_implies_first⟩
  · intro iip lb d tail hd hlb
    rw [SetRequestWithFirstBlock.from_bytes_wfb_shape iip d hd 0 lb tail]
    simp [hlb]
  · intro iip d bn tail hd hbn hne
    rw [SetRequestWithFirstBlock.from_bytes_wfb_shape iip d hd 0 0 (bn ++ tail)]
    rw [List.take_left' hbn]
    simp [hne]

/-- C5 witness: block number 2 fails, last-block byte 1 fails, and the
inversion applied to a decoded buffer. -/
theorem claim_C5_withFirstBlock_invariants_witness :
    SetRequestWithFirstBlock.from_bytes
        (193 :: 2 :: 65 :: ([0, 0, 3, 1, 0, 0, 96, 2, 0] ++
          0 :: 1 :: [0, 0, 0, 1, 0])) = .error .lastBlockSet ∧
    SetRequestWithFirstBlock.from_bytes
        (193 :: 2 :: 65 :: ([0, 0, 3, 1, 0, 0, 96, 2, 0] ++
          0 :: 0 :: ([0, 0, 0, 2] ++ [0]))) = .error .blockNumberNotOne ∧
    ∃ iip d mid, d.length = 9 ∧
      (193 :: 2 :: 65 :: ([0, 0, 3, 1, 0, 0, 96, 2, 0] ++
        0 :: 0 :: [0, 0, 0, 1, 0]) : List Nat) =
        193 :: 2 :: iip :: (d ++ 0 :: 0 :: mid) ∧
      bytesToNat (mid.take 4) = 1 :=
  ⟨claim_C5_withFirstBlock_invariants.1 65 1 [0, 0, 3, 1, 0, 0, 96, 2, 0]
     [0, 0, 0, 1, 0] (by decide) (by decide),
   claim_C5_withFirstBlock_invariants.2.1 65 [0, 0, 3, 1, 0, 0, 96, 2, 0]
     [0, 0, 0, 2] [0] (by decide) (by decide) (by decide),
   claim_C5_withFirstBlock_invariants.2.2 _
     { cosem_attribute := ⟨[0, 0, 3, 1, 0, 0, 96, 2, 0]⟩, data := [],
       access_selection := none, invoke_id_and_priority := ⟨65⟩ } (by rfl)⟩

/-- C6: with a correct family tag, each dispatcher classifies the type-choice
byte three ways: outside 1..5 it is the unknown-variant enum error; a
recognized but unimplemented value (3, 4, 5 for Set-Request; 4, 5 for
Set-Response) is the distinct not-implemented error; an implemented value
dispatches to the matching variant decoder on the whole original buffer. -/
theorem claim_C6_dispatcher_classification :
    (∀ tc : Nat, ∀ rest : List Nat, tc = 0 ∨ 5 < tc →
      SetRequestFactory.from_bytes (193 :: tc :: rest) =
        .error .unknownVariant ∧
      SetResponseFactory.from_bytes (197 :: tc :: rest) =
        .error .unknownVariant) ∧
    (∀ tc : Nat, ∀ rest : List Nat, tc = 3 ∨ tc = 4 ∨ tc = 5 →
      SetRequestFactory.from_bytes (193 :: tc :: rest) =
        .error .notImplementedVariant) ∧
    (∀ tc : Nat, ∀ rest : List Nat, tc = 4 ∨ tc = 5 →
      SetResponseFactory.from_bytes (197 :: tc :: rest) =
        .error .notImplementedVariant) ∧
    DecodeError.notImplementedVariant ≠ DecodeError.unknownVariant ∧
    (∀ rest : List Nat,
      SetRequestFactory.from_bytes (193 :: 1 :: rest) =
        (SetRequestNormal.from_bytes (193 :: 1 :: rest)).map SetRequest.normal ∧
      SetRequestFactory.from_bytes (193 :: 2 :: rest) =
        (SetRequestWithFirstBlock.from_bytes (193 :: 2 :: rest)).map
          SetRequest.withFirstBlock ∧
      SetResponseFactory.from_bytes (197 :: 1 :: rest) =
        (SetResponseNormal.from_bytes (197 :: 1 :: rest)).map
          SetResponse.normal ∧
      SetResponseFactory.from_bytes (197 :: 2 :: rest) =
        (SetResponseWithBlock.from_bytes (197 :: 2 :: rest)).map
          SetResponse.withBlock ∧
      SetResponseFactory.from_bytes (197 :: 3 :: rest) =
        (SetResponseLastBlock.from_bytes (197 :: 3 :: rest)).map
          SetResponse.lastBlock) := by
  refine ⟨?_, SetRequestFactory.eval_notImplemented_req,
    SetResponseFactory.eval_notImplemented_resp, by decide, ?_⟩
  · intro tc rest h
    exact ⟨SetRequestFactory.eval_unknown_req tc rest h,
      SetResponseFactory.eval_unknown_resp tc rest h⟩
  · intro rest
    exact ⟨SetRequestFactory.eval_normal_req rest,
      SetRequestFactory.eval_withFirstBlock rest,
      SetResponseFactory.eval_normal_resp rest,
      SetResponseFactory.eval_withBlock rest,
      SetResponseFactory.eval_lastBlock rest⟩

/-- C6 witness: type-choice 6 is unknown, type-choice 4 is not implemented
for both families, and type-choice 3 is not implemented for Set-Request. -/
theorem claim_C6_dispatcher_classification_witness :
    SetRequestFactory.from_bytes [193, 6, 0] = .error .unknownVariant ∧
    SetRequestFactory.from_bytes [193, 3, 0] = .error .notImplementedVariant ∧
    SetRequestFactory.from_bytes [193, 4, 0] = .error .notImplementedVariant ∧
    SetResponseFactory.from_bytes [197, 4, 0] = .error .notImplementedVariant ∧
    SetResponseFactory.from_bytes [197, 2, 65, 0, 0, 0, 9] =
      (SetResponseWithBlock.from_bytes [197, 2, 65, 0, 0, 0, 9]).map
        SetResponse.withBlock :=
  ⟨(claim_C6_dispatcher_classification.1 6 [0] (by omega)).1,
   claim_C6_dispatcher_classification.2.1 3 [0] (by omega),
   claim_C6_dispatcher_classification.2.1 4 [0] (by omega),
   claim_C6_dispatcher_classification.2.2.1 4 [0] (by omega),
   (claim_C6_dispatcher_classification.2.2.2.2 [65, 0, 0, 0, 9]).2.2.2.1⟩

/-- C7: a non-zero access-selection-present byte makes both Set-Request
decoders fail with the dedicated not-implemented error; a zero byte lets
decoding proceed, and every value either decoder ever returns carries no
access selection. -/
theorem claim_C7_selective_access :
    (∀ iip sel : Nat, ∀ d rest : List Nat, d.length = 9 → sel ≠ 0 →
      SetRequestNormal.from_bytes (193 :: 1 :: iip :: (d ++ sel :: rest)) =
        .error .selectiveAccessNotImplemented ∧
      SetRequestWithFirstBlock.from_bytes
          (193 :: 2 :: iip :: (d ++ sel :: rest)) =
        .error .selectiveAccessNotImplemented) ∧
    (∀ iip : Nat, ∀ d rest : List Nat, d.length = 9 →
      SetRequestNormal.from_bytes (193 :: 1 :: iip :: (d ++ 0 :: rest)) =
        .ok { cosem_attribute := ⟨d⟩, data := rest, access_selection := none,
              invoke_id_and_priority := ⟨iip⟩ }) ∧
    (∀ b : List Nat, ∀ v : SetRequestNormal,
      SetRequestNormal.from_bytes b = .ok v → v.access_selection = none) ∧
    (∀ b : List Nat, ∀ v : SetRequestWithFirstBlock,
      SetRequestWithFirstBlock.from_bytes b = .ok v →
      v.access_selection = none) := by
  refine ⟨?_, ?_, SetRequestNormal.access_none_srn,
    SetRequestWithFirstBlock.access_none_wfb⟩
  · intro iip sel d rest hd hsel
    constructor
    · rw [SetRequestNormal.from_bytes_srn_shape iip d hd sel rest]
      simp [hsel]
    · exact SetRequestWithFirstBlock.from_bytes_sel iip d hd sel rest hsel
  · intro iip d rest hd
    rw [SetRequestNormal.from_bytes_srn_shape iip d hd 0 rest]
    simp

/-- C7 witness: access byte 1 fails both decoders; access byte 0 decodes to
a value without access selection. -/
theorem claim_C7_selective_access_witness :
    SetRequestNormal.from_bytes
        (193 :: 1 :: 65 :: ([0, 0, 3, 1, 0, 0, 96, 2, 0] ++ 1 :: [9])) =
      .error .selectiveAccessNotImplemented ∧
    SetRequestWithFirstBlock.from_bytes
        (193 :: 2 :: 65 :: ([0, 0, 3, 1, 0, 0, 96, 2, 0] ++ 1 :: [9])) =
      .error .selectiveAccessNotImplemented ∧
    SetRequestNormal.from_bytes
        (193 :: 1 :: 65 :: ([0, 0, 3, 1, 0, 0, 96, 2, 0] ++ 0 :: [9])) =
      .ok { cosem_attribute := ⟨[0, 0, 3, 1, 0, 0, 96, 2, 0]⟩, data := [9],
            access_selection := none, invoke_id_and_priority := ⟨65⟩ } :=
  ⟨(claim_C7_selective_access.1 65 1 [0, 0, 3, 1, 0, 0, 96, 2, 0] [9]
      (by decide) (by decide)).1,
   (claim_C7_selective_access.1 65 1 [0, 0, 3, 1, 0, 0, 96, 2, 0] [9]
      (by decide) (by decide)).2,
   claim_C7_selective_access.2.1 65 [0, 0, 3, 1, 0, 0, 96, 2, 0] [9]
     (by decide)⟩

/-- C8: for a Normal-shaped Set-Request buffer the factory returns exactly
the value `SetRequestNormal.from_bytes` returns on the whole original buffer
(the factory re-decodes the already-read tag and type-choice bytes), and
re-encoding the decoded value yields the identical original buffer. -/
theorem claim_C8_dispatcher_equivalence :
    (∀ rest : List Nat,
      SetRequestFactory.from_bytes (193 :: 1 :: rest) =
        (SetRequestNormal.from_bytes (193 :: 1 :: rest)).map
          SetRequest.normal) ∧
    (∀ iip : Nat, ∀ d rest : List Nat, d.length = 9 →
      SetRequestFactory.from_bytes (193 :: 1 :: iip :: (d ++ 0 :: rest)) =
        .ok (.normal { cosem_attribute := ⟨d⟩, data := rest,
                       access_selection := none,
                       invoke_id_and_priority := ⟨iip⟩ }) ∧
      SetRequestNormal.from_bytes (193 :: 1 :: iip :: (d ++ 0 :: rest)) =
        .ok { cosem_attribute := ⟨d⟩, data := rest, access_selection := none,
              invoke_id_and_priority := ⟨iip⟩ } ∧
      SetRequestNormal.to_bytes
          { cosem_attribute := ⟨d⟩, data := rest, access_selection := none,
            invoke_id_and_priority := ⟨iip⟩ } =
        193 :: 1 :: iip :: (d ++ 0 :: rest)) := by
  refine ⟨SetRequestFactory.eval_normal_req, ?_⟩
  intro iip d rest hd
  have hshape := SetRequestNormal.from_bytes_srn_shape iip d hd 0 rest
  rw [if_neg (by omega)] at hshape
  refine ⟨?_, hshape, ?_⟩
  · rw [SetRequestFactory.eval_normal_req, hshape]
    rfl
  · simp [SetRequestNormal.to_bytes, InvokeIdAndPriority.to_bytes,
      CosemAttribute.to_bytes]

/-- C8 witness: a concrete Normal-shaped buffer where factory and variant
decoder agree and re-encoding restores the buffer. -/
theorem claim_C8_dispatcher_equivalence_witness :
    SetRequestFactory.from_bytes
        (193 :: 1 :: 65 :: ([0, 0, 3, 1, 0, 0, 96, 2, 0] ++ 0 :: [7, 7])) =
      .ok (.normal { cosem_attribute := ⟨[0, 0, 3, 1, 0, 0, 96, 2, 0]⟩,
                     data := [7, 7], access_selection := none,
                     invoke_id_and_priority := ⟨65⟩ }) ∧
    SetRequestNormal.to_bytes
        { cosem_attribute := ⟨[0, 0, 3, 1, 0, 0, 96, 2, 0]⟩, data := [7, 7],
          access_selection := none, invoke_id_and_priority := ⟨65⟩ } =
      193 :: 1 :: 65 :: ([0, 0, 3, 1, 0, 0, 96, 2, 0] ++ 0 :: [7, 7]) :=
  ⟨(claim_C8_dispatcher_equivalence.2 65 [0, 0, 3, 1, 0, 0, 96, 2, 0] [7, 7]
      (by decide)).1,
   (claim_C8_dispatcher_equivalence.2 65 [0, 0, 3, 1, 0, 0, 96, 2, 0] [7, 7]
      (by decide)).2.2⟩

/-- C10: the three Set-Response decoders ignore any bytes after their last
declared field, and the two block variants accept a block-number field of
fewer than 4 bytes, decoding the truncated big-endian value (an entirely
missing field decodes to 0). -/
theorem claim_C10_response_leniency :
    (∀ iip res : Nat, ∀ rest : List Nat, isDataAccessResult res →
      SetResponseNormal.from_bytes (197 :: 1 :: iip :: res :: rest) =
        .ok { result := ⟨res⟩, invoke_id_and_priority := ⟨iip⟩ }) ∧
    (∀ iip : Nat, ∀ tail : List Nat,
      SetResponseWithBlock.from_bytes (197 :: 2 :: iip :: tail) =
        .ok { invoke_id_and_priority := ⟨iip⟩,
              block_number := bytesToNat (tail.take 4) }) ∧
    (∀ iip res : Nat, ∀ tail : List Nat, isDataAccessResult res →
      SetResponseLastBlock.from_bytes (197 :: 3 :: iip :: res :: tail) =
        .ok { result := ⟨res⟩, invoke_id_and_priority := ⟨iip⟩,
              block_number := bytesToNat (tail.take 4) }) ∧
    SetResponseWithBlock.from_bytes [197, 2, 65] =
      .ok { invoke_id_and_priority := ⟨65⟩, block_number := 0 } := by
  refine ⟨?_, SetResponseWithBlock.from_bytes_respwb_shape, ?_, by rfl⟩
  · intro iip res rest h
    rw [SetResponseNormal.from_bytes_respn_shape iip res rest]
    simp [h]
  · intro iip res tail h
    rw [SetResponseLastBlock.from_bytes_resplb_shape iip res tail]
    simp [h]

/-- C10 witness: trailing bytes ignored after a Normal response; a 2-byte
block-number field decodes as the truncated value. -/
theorem claim_C10_response_leniency_witness :
    SetResponseNormal.from_bytes [197, 1, 65, 0, 250, 250] =
      .ok { result := ⟨0⟩, invoke_id_and_priority := ⟨65⟩ } ∧
    SetResponseWithBlock.from_bytes [197, 2, 65, 1, 2] =
      .ok { invoke_id_and_priority := ⟨65⟩, block_number := 258 } ∧
    SetResponseLastBlock.from_bytes [197, 3, 65, 0] =
      .ok { result := ⟨0⟩, invoke_id_and_priority := ⟨65⟩,
            block_number := 0 } :=
  ⟨claim_C10_response_leniency.1 65 0 [250, 250] (by decide),
   (claim_C10_response_leniency.2.1 65 [1, 2]).trans (by rfl),
   (claim_C10_response_leniency.2.2.1 65 0 [] (by decide)).trans (by rfl)⟩

/-- Any value below 256 is below `256 ^ 127`. -/
theorem lt_256_pow_127 (n : Nat) (h : n < 256) : n < 256 ^ 127 :=
  lt_of_lt_of_le h (by
    calc (256 : Nat) = 256 ^ 1 := (pow_one 256).symm
    _ ≤ 256 ^ 127 := Nat.pow_le_pow_right (by decide) (by decide))

/-- C9: `GeneralBlockTransfer` construction does not range-check `window`,
and with `window = 64` the encoder sets bit 6 of the control octet, so
decoding the encoding yields `streaming = true, window = 0` instead of the
original value; the round trip does hold under the precondition
`window ≤ 63` (with the other fields in range). -/
theorem claim_C9_window_overflow :
    (GeneralBlockTransfer.to_bytes
        { last_block := false, streaming := false, window := 64,
          block_number := 0, block_ack := 0, block_data := [] } =
      .ok [224, 64, 0, 0, 0, 0, 0] ∧
     GeneralBlockTransfer.from_bytes [224, 64, 0, 0, 0, 0, 0] =
      .ok { last_block := false, streaming := true, window := 0,
            block_number := 0, block_ack := 0, block_data := [] } ∧
     ({ last_block := false, streaming := true, window := 0,
        block_number := 0, block_ack := 0,
        block_data := [] } : GeneralBlockTransfer) ≠
       { last_block := false, streaming := false, window := 64,
         block_number := 0, block_ack := 0, block_data := [] }) ∧
    (∀ lb s : Bool, ∀ w bn ba : Nat, ∀ bd : List Nat,
      w ≤ 63 → bn < 65536 → ba < 65536 → bd.length ≤ 255 →
      ∃ b, GeneralBlockTransfer.to_bytes ⟨lb, s, w, bn, ba, bd⟩ = .ok b ∧
           GeneralBlockTransfer.from_bytes b = .ok ⟨lb, s, w, bn, ba, bd⟩) := by
  refine ⟨⟨by rfl, by rfl, by decide⟩, ?_⟩
  intro lb s w bn ba bd hw hbn hba hbd
  obtain ⟨e1, e2⟩ := gbt_roundtrip lb s w bn ba bd hw hbn hba hbd
  exact ⟨_, e1, e2⟩

/-- C9 witness: the bounded round trip at the literal test vector. -/
theorem claim_C9_window_overflow_witness :
    ∃ b, GeneralBlockTransfer.to_bytes
        ⟨true, false, 3, 4, 5, [97, 98, 99]⟩ = .ok b ∧
      GeneralBlockTransfer.from_bytes b =
        .ok ⟨true, false, 3, 4, 5, [97, 98, 99]⟩ :=
  claim_C9_window_overflow.2 true false 3 4 5 [97, 98, 99]
    (by decide) (by decide) (by decide) (by decide)

/-- C1: round trips of every implemented variant.  For each variant, first
direction: decoding the encoding of a valid value (fields in declared range,
access selection absent) restores it; second direction: a canonically-encoded
buffer (the encoding of some valid value) re-encodes to itself after
decoding.  The `SetRequestWithFirstBlock` fragment length is additionally
bounded by `256 ^ 127` so that its BER length prefix is well-formed. -/
theorem claim_C1_roundtrip :
    (∀ x : GeneralBlockTransfer, x.window ≤ 63 → x.block_number < 65536 →
      x.block_ack < 65536 → x.block_data.length ≤ 255 →
      ∃ b, x.to_bytes = .ok b ∧ GeneralBlockTransfer.from_bytes b = .ok x) ∧
    (∀ x : GeneralBlockTransfer, ∀ b : List Nat, x.window ≤ 63 →
      x.block_number < 65536 → x.block_ack < 65536 →
      x.block_data.length ≤ 255 → x.to_bytes = .ok b →
      ∃ y, GeneralBlockTransfer.from_bytes b = .ok y ∧
           GeneralBlockTransfer.to_bytes y = .ok b) ∧
    (∀ x : SetRequestNormal, x.cosem_attribute.descriptor.length = 9 →
      x.access_selection = none →
      SetRequestNormal.from_bytes x.to_bytes = .ok x) ∧
    (∀ x : SetRequestNormal, ∀ b : List Nat,
      x.cosem_attribute.descriptor.length = 9 → x.access_selection = none →
      x.to_bytes = b →
      ∃ y, SetRequestNormal.from_bytes b = .ok y ∧
           SetRequestNormal.to_bytes y = b) ∧
    (∀ x : SetRequestWithFirstBlock, x.cosem_attribute.descriptor.length = 9 →
      x.access_selection = none → x.data.length < 256 ^ 127 →
      SetRequestWithFirstBlock.from_bytes x.to_bytes = .ok x) ∧
    (∀ x : SetRequestWithFirstBlock, ∀ b : List Nat,
      x.cosem_attribute.descriptor.length = 9 → x.access_selection = none →
      x.data.length < 256 ^ 127 → x.to_bytes = b →
      ∃ y, SetRequestWithFirstBlock.from_bytes b = .ok y ∧
           SetRequestWithFirstBlock.to_bytes y = b) ∧
    (∀ x : SetResponseNormal, isDataAccessResult x.result.value →
      SetResponseNormal.from_bytes x.to_bytes = .ok x) ∧
    (∀ x : SetResponseNormal, ∀ b : List Nat,
      isDataAccessResult x.result.value → x.to_bytes = b →
      ∃ y, SetResponseNormal.from_bytes b = .ok y ∧
           SetResponseNormal.to_bytes y = b) ∧
    (∀ x : SetResponseWithBlock, x.block_number < 4294967296 →
      ∃ b, x.to_bytes = .ok b ∧ SetResponseWithBlock.from_bytes b = .ok x) ∧
    (∀ x : SetResponseWithBlock, ∀ b : List Nat, x.block_number < 4294967296 →
      x.to_bytes = .ok b →
      ∃ y, SetResponseWithBlock.from_bytes b = .ok y ∧
           SetResponseWithBlock.to_bytes y = .ok b) ∧
    (∀ x : SetResponseLastBlock, isDataAccessResult x.result.value →
      x.block_number < 4294967296 →
      ∃ b, x.to_bytes = .ok b ∧ SetResponseLastBlock.from_bytes b = .ok x) ∧
    (∀ x : SetResponseLastBlock, ∀ b : List Nat,
      isDataAccessResult x.result.value → x.block_number < 4294967296 →
      x.to_bytes = .ok b →
      ∃ y, SetResponseLastBlock.from_bytes b = .ok y ∧
           SetResponseLastBlock.to_bytes y = .ok b) := by
  refine ⟨?_, ?_, SetRequestNormal.roundtrip_srn, ?_,
    SetRequestWithFirstBlock.roundtrip_wfb, ?_, SetResponseNormal.roundtrip_respn, ?_,
    SetResponseWithBlock.roundtrip_respwb, ?_, SetResponseLastBlock.roundtrip_resplb, ?_⟩
  · intro x h1 h2 h3 h4
    obtain ⟨lb, s, w, bn, ba, bd⟩ := x
    obtain ⟨e1, e2⟩ := gbt_roundtrip lb s w bn ba bd h1 h2 h3 h4
    exact ⟨_, e1, e2⟩
  · intro x b h1 h2 h3 h4 henc
    obtain ⟨lb, s, w, bn, ba, bd⟩ := x
    obtain ⟨e1, e2⟩ := gbt_roundtrip lb s w bn ba bd h1 h2 h3 h4
    obtain rfl : _ = b := Except.ok.inj (e1.symm.trans henc)
    exact ⟨_, e2, e1⟩
  · intro x b h1 h2 henc
    subst henc
    exact ⟨x, SetRequestNormal.roundtrip_srn x h1 h2, rfl⟩
  · intro x b h1 h2 h3 henc
    subst henc
    exact ⟨x, SetRequestWithFirstBlock.roundtrip_wfb x h1 h2 h3, rfl⟩
  · intro x b h1 henc
    subst henc
    exact ⟨x, SetResponseNormal.roundtrip_respn x h1, rfl⟩
  · intro x b h1 henc
    obtain ⟨c, e1, e2⟩ := SetResponseWithBlock.roundtrip_respwb x h1
    obtain rfl : _ = b := Except.ok.inj (e1.symm.trans henc)
    exact ⟨x, e2, e1⟩
  · intro x b h1 h2 henc
    obtain ⟨c, e1, e2⟩ := SetResponseLastBlock.roundtrip_resplb x h1 h2
    obtain rfl : _ = b := Except.ok.inj (e1.symm.trans henc)
    exact ⟨x, e2, e1⟩

/-- C1 witness: one concrete round trip per implemented variant. -/
theorem claim_C1_roundtrip_witness :
    (∃ b, GeneralBlockTransfer.to_bytes
        { last_block := true, streaming := false, window := 3,
          block_number := 4, block_ack := 5, block_data := [97, 98, 99] } =
        .ok b ∧
      GeneralBlockTransfer.from_bytes b =
        .ok { last_block := true, streaming := false, window := 3,
              block_number := 4, block_ack := 5,
              block_data := [97, 98, 99] }) ∧
    SetRequestNormal.from_bytes
        (SetRequestNormal.to_bytes
          { cosem_attribute := ⟨[0, 0, 3, 1, 0, 0, 96, 2, 0]⟩, data := [9],
            access_selection := none, invoke_id_and_priority := ⟨65⟩ }) =
      .ok { cosem_attribute := ⟨[0, 0, 3, 1, 0, 0, 96, 2, 0]⟩, data := [9],
            access_selection := none, invoke_id_and_priority := ⟨65⟩ } ∧
    SetRequestWithFirstBlock.from_bytes
        (SetRequestWithFirstBlock.to_bytes
          { cosem_attribute := ⟨[0, 0, 3, 1, 0, 0, 96, 2, 0]⟩, data := [9],
            access_selection := none, invoke_id_and_priority := ⟨65⟩ }) =
      .ok { cosem_attribute := ⟨[0, 0, 3, 1, 0, 0, 96, 2, 0]⟩, data := [9],
            access_selection := none, invoke_id_and_priority := ⟨65⟩ } ∧
    SetResponseNormal.from_bytes
        (SetResponseNormal.to_bytes
          { result := ⟨0⟩, invoke_id_and_priority := ⟨65⟩ }) =
      .ok { result := ⟨0⟩, invoke_id_and_priority := ⟨65⟩ } ∧
    (∃ b, SetResponseWithBlock.to_bytes
        { invoke_id_and_priority := ⟨65⟩, block_number := 258 } = .ok b ∧
      SetResponseWithBlock.from_bytes b =
        .ok { invoke_id_and_priority := ⟨65⟩, block_number := 258 }) ∧
    (∃ b, SetResponseLastBlock.to_bytes
        { result := ⟨250⟩, invoke_id_and_priority := ⟨65⟩,
          block_number := 9 } = .ok b ∧
      SetResponseLastBlock.from_bytes b =
        .ok { result := ⟨250⟩, invoke_id_and_priority := ⟨65⟩,
              block_number := 9 }) :=
  ⟨claim_C1_roundtrip.1 _ (by decide) (by decide) (by decide) (by decide),
   claim_C1_roundtrip.2.2.1 _ (by decide) (by decide),
   claim_C1_roundtrip.2.2.2.2.1 _ (by decide) (by decide)
     (lt_256_pow_127 1 (by decide)),
   claim_C1_roundtrip.2.2.2.2.2.2.1 _ (by decide),
   claim_C1_roundtrip.2.2.2.2.2.2.2.2.1 _ (by decide),
   claim_C1_roundtrip.2.2.2.2.2.2.2.2.2.2.1 _ (by decide) (by decide)⟩
